import Mathlib

/-!
Verification development for the detect-then-execute core of the
CodeConverter application (`src/app.py`).

The Python source is shallowly embedded:

* `detect_language` (the heuristic classifier) is translated into a pure
  Lean function over `List Char`.  Each of the five regular-expression
  checks of the source is translated into a dedicated matcher; the
  character classes `\s` and `\w` are the ASCII sets Python uses on this
  input alphabet.  All the regexes of the source combine literals with the
  disjoint classes `\s` and `\w`, so greedy matching without backtracking
  is exact and the matchers below implement exactly the regex semantics,
  including `\s` matching newline characters.
* The executors (`compile_cpp`, `run_python`, `run_java`,
  `run_javascript`) interact with the operating system.  They are embedded
  as functions of an explicit environment describing the external world
  (toolchain-probe result, name handed out by the temporary-file facility,
  result of each subprocess: normal completion with exit code and captured
  streams, a timeout, or a failure to start the process).  Each executor
  returns the `(succeeded, message)` pair of the source together with a
  trace of its filesystem and process effects, from which the set of
  files left on disk is computed.
* `process_code` is embedded with the external translation service
  (`call_llm`, an HTTP call) represented by an oracle string, together
  with a flag recording whether the service was consulted.

The embedding follows the POSIX branch of the source
(`os.name != 'nt'`), and assumes temporary-file creation, renaming and
successful deletions do not themselves fail (the source treats deletion
failures as best-effort no-ops, which is exactly how `filesRemaining`
treats a delete of an absent file).
-/

/-! ### Character classes (Python `\s`, `\w` on ASCII input) -/

def isPySpace (c : Char) : Bool :=
  c == ' ' || c == '\t' || c == '\n' || c == '\r' || c == '\x0b' || c == '\x0c'

def isWordChar (c : Char) : Bool :=
  c.isAlphanum || c == '_'

/-- Python `str.strip()`: remove leading and trailing whitespace. -/
def stripL (l : List Char) : List Char :=
  ((l.dropWhile isPySpace).reverse.dropWhile isPySpace).reverse

/-- Python `needle in hay` on strings: substring containment. -/
def isInfixL (needle : List Char) : List Char → Bool
  | [] => needle.isPrefixOf ([] : List Char)
  | c :: rest => needle.isPrefixOf (c :: rest) || isInfixL needle rest

/-- `sum(1 for indicator in inds if indicator in code)`. -/
def countIndicators (inds : List String) (l : List Char) : Nat :=
  (inds.filter (fun s => isInfixL s.toList l)).length

/-! ### Literal fragments of the regexes -/

def defKw : List Char := ['d', 'e', 'f']
def includeKw : List Char := ['#', 'i', 'n', 'c', 'l', 'u', 'd', 'e']
def pubKw : List Char := ['p', 'u', 'b', 'l', 'i', 'c']
def classKw : List Char := ['c', 'l', 'a', 's', 's']
def funcKw : List Char := ['f', 'u', 'n', 'c', 't', 'i', 'o', 'n']

/-! ### Regex matchers

`searchLineStarts m l` is `re.search` with `re.MULTILINE` of a
`^`-anchored pattern: the pattern matcher `m` is tried at the start of
the string and after every newline.  `searchAllPos m l` is `re.search`
of an unanchored pattern: `m` is tried at every position. -/

def searchFrom (m : List Char → Bool) : List Char → Bool
  | [] => false
  | c :: rest => (c == '\n' && m rest) || searchFrom m rest

def searchLineStarts (m : List Char → Bool) (l : List Char) : Bool :=
  m l || searchFrom m l

def searchAllPos (m : List Char → Bool) : List Char → Bool
  | [] => m []
  | c :: rest => m (c :: rest) || searchAllPos m rest

/-- Tail `\(`: the next character is an opening parenthesis. -/
def parenThen (w : List Char) : Bool :=
  match w with
  | a :: _ => a == '('
  | [] => false

/-- Tail `\w+\s*\(`. -/
def wordThen (v : List Char) : Bool :=
  match v with
  | [] => false
  | d :: _ => isWordChar d && parenThen ((v.dropWhile isWordChar).dropWhile isPySpace)

/-- Tail `\s+\w+\s*\(`. -/
def defTail (u : List Char) : Bool :=
  match u with
  | [] => false
  | c :: _ => isPySpace c && wordThen (u.dropWhile isPySpace)

/-- Pattern `^\s*def\s+\w+\s*\(` tried at one line start. -/
def defMatchAt (s : List Char) : Bool :=
  defKw.isPrefixOf (s.dropWhile isPySpace) && defTail ((s.dropWhile isPySpace).drop 3)

/-- Tail `.*>` within one line (no newline before the `>`). -/
def gtBeforeNl : List Char → Bool
  | [] => false
  | c :: rest => c == '>' || (!(c == '\n') && gtBeforeNl rest)

/-- Pattern `^\s*#include\s*<.*>` tried at one line start. -/
def includeMatchAt (s : List Char) : Bool :=
  includeKw.isPrefixOf (s.dropWhile isPySpace) &&
    (match ((s.dropWhile isPySpace).drop 8).dropWhile isPySpace with
     | a :: r => a == '<' && gtBeforeNl r
     | [] => false)

/-- Pattern `^\s{4,}` tried at one line start. -/
def indentMatchAt (s : List Char) : Bool :=
  match s with
  | a :: b :: c :: d :: _ => isPySpace a && isPySpace b && isPySpace c && isPySpace d
  | _ => false

/-- Tail `\w+` with its (greedy) capture, as in group 1 of
`public\s+class\s+(\w+)`. -/
def wordRun (v : List Char) : Option (List Char) :=
  match v with
  | d :: _ => if isWordChar d then some (v.takeWhile isWordChar) else none
  | [] => none

/-- Tail `\s+(\w+)` after the `class` literal. -/
def afterClassKw (r : List Char) : Option (List Char) :=
  match r with
  | d :: _ => if isPySpace d then wordRun (r.dropWhile isPySpace) else none
  | [] => none

/-- Pattern `public\s+class\s+(\w+)` tried at one position, returning the
captured identifier. -/
def javaClassAt (l : List Char) : Option (List Char) :=
  if pubKw.isPrefixOf l then
    match l.drop 6 with
    | c :: r =>
      if isPySpace c then
        if classKw.isPrefixOf ((c :: r).dropWhile isPySpace) then
          afterClassKw (((c :: r).dropWhile isPySpace).drop 5)
        else none
      else none
    | [] => none
  else none

/-- `re.search(r'public\s+class\s+(\w+)', code)`: leftmost match wins. -/
def searchClass : List Char → Option (List Char)
  | [] => javaClassAt ([] : List Char)
  | c :: rest =>
    match javaClassAt (c :: rest) with
    | some nm => some nm
    | none => searchClass rest

/-- Class-name extraction of `run_java` (group 1 of the match, if any). -/
def javaClassName (code : String) : Option String :=
  (searchClass code.toList).map (fun nm => String.mk nm)

/-- Boolean form used by the classifier (`re.search(r'public\s+class\s+\w+', code)`). -/
def publicClassFound (l : List Char) : Bool :=
  (searchClass l).isSome

/-- Pattern `function\s+\w+\s*\(` tried at one position. -/
def functionMatchAt (l : List Char) : Bool :=
  funcKw.isPrefixOf l && defTail (l.drop 8)

/-! ### The classifier (`detect_language`) -/

def python_indicators : List String :=
  [r"def ", r"import ", r"from ", r"if __name__", r"print(", r"elif ",
   r"except:", r"with ", r"yield ", r"lambda ", r"True", r"False", r"None"]

def cpp_indicators : List String :=
  [r"#include", r"using namespace", r"int main(", r"std::", r"cout", r"cin",
   r"endl", r"class ", r"public:", r"private:", r"protected:", r"vector<",
   r"string ", r"int ", r"float ", r"double ", r"void ", r"return 0;"]

def java_indicators : List String :=
  [r"public class", r"public static void main", r"System.out.println",
   r"private ", r"protected ", r"extends ", r"implements ", r"package ",
   r"import java.", r"new ", r"String[]"]

def js_indicators : List String :=
  [r"function ", r"var ", r"let ", r"const ", r"console.log", r"document.",
   r"window.", r"=>", r"require(", r"module.exports"]

def hasBraces (l : List Char) : Bool :=
  l.any (fun c => c == '\x7b') && l.any (fun c => c == '\x7d')

/-- The Python-column bonus `+3` of the classifier (line 63 of the source):
`re.search(r'^\s*def\s+\w+\s*\(', code, re.MULTILINE)` on the stripped code. -/
def defBonusL (l : List Char) : Bool :=
  searchLineStarts defMatchAt l

def python_score (l : List Char) : Nat :=
  countIndicators python_indicators l
    + (if defBonusL l then 3 else 0)
    + (if searchLineStarts indentMatchAt l then 2 else 0)

def cpp_score (l : List Char) : Nat :=
  countIndicators cpp_indicators l
    + (if searchLineStarts includeMatchAt l then 3 else 0)
    + (if hasBraces l then 1 else 0)

def java_score (l : List Char) : Nat :=
  countIndicators java_indicators l
    + (if publicClassFound l then 3 else 0)
    + (if hasBraces l then 1 else 0)

def js_score (l : List Char) : Nat :=
  countIndicators js_indicators l
    + (if searchAllPos functionMatchAt l then 2 else 0)
    + (if hasBraces l then 1 else 0)

def pyName : String := "Python"
def cppName : String := "C++"
def javaName : String := "Java"
def jsName : String := "JavaScript"
def unknownName : String := "Unknown"

/-- `max(scores, key=scores.get)` over the insertion-ordered dict followed
by the `> 0` test: Python `max` keeps the first element and replaces it
only on a strictly greater key, so the first encountered maximum wins. -/
def detectPick (p c j s : Nat) : String :=
  let b1 : String × Nat := (pyName, p)
  let b2 : String × Nat := if c > b1.2 then (cppName, c) else b1
  let b3 : String × Nat := if j > b2.2 then (javaName, j) else b2
  let b4 : String × Nat := if s > b3.2 then (jsName, s) else b3
  if b4.2 > 0 then b4.1 else unknownName

/-- `CodeConverter.detect_language` (lines 23-82 of the source). -/
def detect_language (code : String) : String :=
  let l := stripL code.toList
  detectPick (python_score l) (cpp_score l) (java_score l) (js_score l)

/-- Selection as worded by the specification: the language with the
maximal total score, `Unknown` exactly when the maximum is zero, ties
among positive scores resolved by enumeration order with the first
maximum winning. -/
def specPick (p c j s : Nat) : String :=
  let m := max (max (max p c) j) s
  if m = 0 then unknownName
  else if p = m then pyName
  else if c = m then cppName
  else if j = m then javaName
  else jsName

/-- Classifier as worded by the specification (same scores, spec-worded
selection); compared with `detect_language` in the refinement theorem. -/
def specClassify (code : String) : String :=
  let l := stripL code.toList
  specPick (python_score l) (cpp_score l) (java_score l) (js_score l)

/-! ### Executor model

Each `subprocess.run` call with a `timeout=` argument either completes
normally (exit code plus captured stdout/stderr), raises
`subprocess.TimeoutExpired`, or raises an `OSError` such as
`FileNotFoundError` before the child starts (caught by the source's
generic `except Exception` handler).  The toolchain probes
(`g++ --version`, `javac -version`, `node --version`) are run with
`check=True` and no timeout: the probe succeeds exactly when the binary
starts and exits with code zero. -/

structure ProcResult where
  returncode : Int
  stdout : String
  stderr : String
deriving DecidableEq

inductive ProcOutcome where
  | completed (r : ProcResult)
  | timeout
  | startFailure (emsg : String)
deriving DecidableEq

def ProcOutcome.isCompleted : ProcOutcome → Bool
  | .completed _ => true
  | _ => false

inductive ProbeResult where
  | found (returncode : Int)
  | missing
deriving DecidableEq

/-- `subprocess.run([tool, versionflag], check=True)` raises
`CalledProcessError` on a non-zero exit and `FileNotFoundError` when the
binary is absent; either exception makes the source report the toolchain
unavailable. -/
def ProbeResult.available : ProbeResult → Bool
  | .found rc => rc == 0
  | .missing => false

/-- One filesystem or process effect of an executor. -/
inductive FsEvent where
  | spawn (argv : List String)
  | createFile (path : String)
  | renameFile (src dst : String)
  | deleteFile (path : String)
deriving DecidableEq

/-- Files on disk after replaying a trace (deletion of an absent file is
a no-op, matching the source's swallowed `os.unlink` exceptions). -/
def applyEvent (fs : List String) : FsEvent → List String
  | .spawn _ => fs
  | .createFile p => fs ++ [p]
  | .renameFile a b => fs.erase a ++ [b]
  | .deleteFile p => fs.erase p

def filesRemaining (tr : List FsEvent) : List String :=
  tr.foldl applyEvent []

def createsOf (tr : List FsEvent) : List String :=
  tr.filterMap (fun ev => match ev with | .createFile p => some p | _ => none)

def spawnsOf (tr : List FsEvent) : List (List String) :=
  tr.filterMap (fun ev => match ev with | .spawn a => some a | _ => none)

/-- The `(succeeded, message)` pair returned by an executor, together
with the trace of its effects. -/
structure ExecResult where
  succeeded : Bool
  message : String
  trace : List FsEvent
deriving DecidableEq

def emptyStr : String := ""
def slashStr : String := "/"

/-- POSIX `os.path.dirname`. -/
def dirname (s : String) : String :=
  let rev := s.toList.reverse.dropWhile (fun c => !(c == '/'))
  let stripped := rev.dropWhile (fun c => c == '/')
  if stripped = [] then String.mk rev.reverse else String.mk stripped.reverse

/-- `os.path.join` for an absolute or empty directory and a plain name. -/
def osJoin (d n : String) : String :=
  if d = emptyStr then n else d ++ slashStr ++ n

/-- Python `str.replace(pat, '')` specialised to the pattern `.cpp`
(line 219 of the source, POSIX branch). -/
def stripCppExt : List Char → List Char
  | '.' :: 'c' :: 'p' :: 'p' :: rest => stripCppExt rest
  | c :: rest => c :: stripCppExt rest
  | [] => []

def gxxCmd : String := r"g++"
def versionFlagLong : String := r"--version"
def versionFlagShort : String := r"-version"
def stdFlag : String := r"-std=c++17"
def oFlag : String := r"-o"
def pythonCmd : String := r"python"
def javacCmd : String := r"javac"
def javaCmd : String := r"java"
def cpFlag : String := r"-cp"
def nodeCmd : String := r"node"
def javaExt : String := r".java"
def classExt : String := r".class"

def gxxProbeCmd : List String := [gxxCmd, versionFlagLong]
def javacProbeCmd : List String := [javacCmd, versionFlagShort]
def nodeProbeCmd : List String := [nodeCmd, versionFlagLong]

def cppNotFoundMsg : String := "❌ C++ compiler not found!\n                \nFor Jupyter Notebook users, install using:\n1. Open Anaconda Prompt\n2. Run: conda install -c conda-forge gcc_impl_win-64 gxx_impl_win-64\n3. Restart Jupyter Notebook\n\nAlternative: Use online C++ compilers like:\n- https://www.onlinegdb.com/\n- https://replit.com/\n- https://ideone.com/"
def javaNotFoundMsg : String := "❌ Java compiler not found!\n                \nFor Jupyter Notebook users, install using:\n1. Open Anaconda Prompt\n2. Run: conda install openjdk\n3. Restart Jupyter Notebook\n\nAlternative: Use online Java compilers like:\n- https://www.onlinegdb.com/\n- https://replit.com/\n- https://jdoodle.com/"
def nodeNotFoundMsg : String := "❌ Node.js not found!\n                \nFor Jupyter Notebook users, install using:\n1. Open Anaconda Prompt\n2. Run: conda install nodejs\n3. Restart Jupyter Notebook\n\nAlternative: Use online JavaScript runners like:\n- https://jsfiddle.net/\n- https://codepen.io/\n- https://replit.com/"

def cppOkHeader : String := "✅ Compilation successful!\n\n--- Output ---\n"
def warningsSep : String := "\n--- Warnings ---\n"
def compileFailedHeader : String := "❌ Compilation failed:\n"
def cppGenericErrHeader : String := "❌ Error during compilation: "
def compileRunTimeoutMsg : String := "⏱️ Compilation or execution timed out"
def execOkHeader : String := "✅ Execution successful!\n\n--- Output ---\n"
def errWarnSep : String := "\n--- Errors/Warnings ---\n"
def execErrHeader : String := "❌ Error during execution: "
def execTimeoutMsg : String := "⏱️ Execution timed out"
def javaOkHeader : String := "✅ Compilation and execution successful!\n\n--- Output ---\n"
def javaGenericErrHeader : String := "❌ Error during compilation/execution: "
def noPublicClassMsg : String := "❌ Could not find public class declaration"
def timedOutStr : String := "timed out"

/-- Environment of one `compile_cpp` call: the probe answer, the name the
temporary-file facility hands out (with its `.cpp` suffix), and the fate
of the compile and run subprocesses. -/
structure CppEnv where
  probe : ProbeResult
  tmpName : String
  compile : ProcOutcome
  run : ProcOutcome
deriving DecidableEq

/-- `CodeConverter.compile_cpp` (lines 196-261 of the source). -/
def compile_cpp (_cpp_code : String) (env : CppEnv) : ExecResult :=
  if env.probe.available then
    let cpp_file := env.tmpName
    let exe_file := String.mk (stripCppExt cpp_file.toList)
    let pre : List FsEvent :=
      [.spawn gxxProbeCmd, .createFile cpp_file,
       .spawn [gxxCmd, stdFlag, oFlag, exe_file, cpp_file]]
    match env.compile with
    | .timeout => ⟨false, compileRunTimeoutMsg, pre⟩
    | .startFailure e => ⟨false, cppGenericErrHeader ++ e, pre⟩
    | .completed c =>
      if c.returncode = 0 then
        let pre2 : List FsEvent := pre ++ [.createFile exe_file, .spawn [exe_file]]
        match env.run with
        | .timeout => ⟨false, compileRunTimeoutMsg, pre2⟩
        | .startFailure e => ⟨false, cppGenericErrHeader ++ e, pre2⟩
        | .completed r =>
          let output := cppOkHeader ++ r.stdout
          let output := if r.stderr = emptyStr then output else output ++ warningsSep ++ r.stderr
          ⟨true, output, pre2 ++ [.deleteFile cpp_file, .deleteFile exe_file]⟩
      else
        ⟨false, compileFailedHeader ++ c.stderr, pre ++ [.deleteFile cpp_file]⟩
  else
    ⟨false, cppNotFoundMsg, [.spawn gxxProbeCmd]⟩

/-- Environment of one `run_python` call.  Note the source probes no
toolchain here: the interpreter being missing shows up as a
`FileNotFoundError` from the run call itself. -/
structure PyEnv where
  tmpName : String
  run : ProcOutcome
deriving DecidableEq

/-- `CodeConverter.run_python` (lines 263-293 of the source). -/
def run_python (_python_code : String) (env : PyEnv) : ExecResult :=
  let py_file := env.tmpName
  let pre : List FsEvent := [.createFile py_file, .spawn [pythonCmd, py_file]]
  match env.run with
  | .timeout => ⟨false, execTimeoutMsg, pre⟩
  | .startFailure e => ⟨false, execErrHeader ++ e, pre⟩
  | .completed r =>
    let output := execOkHeader ++ r.stdout
    let output := if r.stderr = emptyStr then output else output ++ errWarnSep ++ r.stderr
    ⟨r.returncode == 0, output, pre ++ [.deleteFile py_file]⟩

/-- Environment of one `run_java` call. -/
structure JavaEnv where
  probe : ProbeResult
  tmpName : String
  compile : ProcOutcome
  run : ProcOutcome
deriving DecidableEq

/-- `CodeConverter.run_java` (lines 295-370 of the source).  When the
compile step exits zero, `javac` has produced `<Class>.class` next to the
renamed source file; the model records that as a `createFile` event. -/
def run_java (java_code : String) (env : JavaEnv) : ExecResult :=
  if env.probe.available then
    match javaClassName java_code with
    | none => ⟨false, noPublicClassMsg, [.spawn javacProbeCmd]⟩
    | some class_name =>
      let java_file := env.tmpName
      let java_dir := dirname java_file
      let proper_java_file := osJoin java_dir (class_name ++ javaExt)
      let class_file := osJoin java_dir (class_name ++ classExt)
      let pre : List FsEvent :=
        [.spawn javacProbeCmd, .createFile java_file,
         .renameFile java_file proper_java_file,
         .spawn [javacCmd, proper_java_file]]
      match env.compile with
      | .timeout => ⟨false, compileRunTimeoutMsg, pre⟩
      | .startFailure e => ⟨false, javaGenericErrHeader ++ e, pre⟩
      | .completed c =>
        if c.returncode = 0 then
          let pre2 : List FsEvent :=
            pre ++ [.createFile class_file, .spawn [javaCmd, cpFlag, java_dir, class_name]]
          match env.run with
          | .timeout => ⟨false, compileRunTimeoutMsg, pre2⟩
          | .startFailure e => ⟨false, javaGenericErrHeader ++ e, pre2⟩
          | .completed r =>
            let output := javaOkHeader ++ r.stdout
            let output := if r.stderr = emptyStr then output else output ++ errWarnSep ++ r.stderr
            ⟨true, output, pre2 ++ [.deleteFile proper_java_file, .deleteFile class_file]⟩
        else
          ⟨false, compileFailedHeader ++ c.stderr, pre ++ [.deleteFile proper_java_file]⟩
  else
    ⟨false, javaNotFoundMsg, [.spawn javacProbeCmd]⟩

/-- Environment of one `run_javascript` call. -/
structure JsEnv where
  probe : ProbeResult
  tmpName : String
  run : ProcOutcome
deriving DecidableEq

/-- `CodeConverter.run_javascript` (lines 372-418 of the source). -/
def run_javascript (_js_code : String) (env : JsEnv) : ExecResult :=
  if env.probe.available then
    let js_file := env.tmpName
    let pre : List FsEvent := [.spawn nodeProbeCmd, .createFile js_file, .spawn [nodeCmd, js_file]]
    match env.run with
    | .timeout => ⟨false, execTimeoutMsg, pre⟩
    | .startFailure e => ⟨false, execErrHeader ++ e, pre⟩
    | .completed r =>
      let output := execOkHeader ++ r.stdout
      let output := if r.stderr = emptyStr then output else output ++ errWarnSep ++ r.stderr
      ⟨r.returncode == 0, output, pre ++ [.deleteFile js_file]⟩
  else
    ⟨false, nodeNotFoundMsg, [.spawn nodeProbeCmd]⟩

/-! ### Orchestration (`process_code`) -/

/-- Python `str.startswith`. -/
def startswith (s pre : String) : Bool :=
  pre.toList.isPrefixOf s.toList

/-- `CodeConverter.convert_code` (lines 176-194).  The translation
service consulted by `call_llm` is external; `llm` is the string it would
return for the constructed prompt, and the second component records
whether the service was called at all. -/
def convert_code (llm : String) (source_code source_lang target_lang : String) :
    String × Bool :=
  if source_lang == target_lang then (source_code, false) else (llm, true)

structure Envs where
  cppEnv : CppEnv
  pyEnv : PyEnv
  javaEnv : JavaEnv
  jsEnv : JsEnv
deriving DecidableEq

structure ProcessResult where
  conversion_info : String
  converted_code : String
  execution_output : String
  llmCalled : Bool
deriving DecidableEq

def provideMsg : String := "Please provide source code"
def cannotDetectMsg : String := "Could not detect programming language. Please ensure your code is valid."
def srcLangHeader : String := "Source language: "
def noConversionSuffix : String := "\nNo conversion needed - same language selected."
def detectedHeader : String := "Detected language: "
def convFailedSep : String := "\nConversion failed: "
def convertedToSep : String := "\nConverted to: "
def convOkSuffix : String := "\n\n✅ Conversion completed successfully!"
def errorWord : String := "Error"
def apiErrorWord : String := "API Error"

/-- `process_code` (lines 427-467 of the source): detect, convert (or
not), optionally compile/run.  Python truthiness of strings is
non-emptiness. -/
def process_code (llm : String) (envs : Envs) (source_code target_lang : String)
    (compile_run : Bool) : ProcessResult :=
  if stripL source_code.toList = [] then
    ⟨provideMsg, emptyStr, emptyStr, false⟩
  else
    let detected_lang := detect_language source_code
    if detected_lang == unknownName then
      ⟨cannotDetectMsg, emptyStr, emptyStr, false⟩
    else
      let step :=
        if detected_lang == target_lang then
          (srcLangHeader ++ detected_lang ++ noConversionSuffix, source_code, false)
        else
          let cc := (convert_code llm source_code detected_lang target_lang).1
          if startswith cc errorWord || startswith cc apiErrorWord then
            (detectedHeader ++ detected_lang ++ convFailedSep ++ cc, emptyStr, true)
          else
            (detectedHeader ++ detected_lang ++ convertedToSep ++ target_lang ++ convOkSuffix,
             cc, true)
      let conversion_info := step.1
      let converted_code := step.2.1
      let execution_output :=
        if compile_run && !(converted_code == emptyStr) && !(startswith converted_code errorWord) then
          if target_lang == cppName then (compile_cpp converted_code envs.cppEnv).message
          else if target_lang == pyName then (run_python converted_code envs.pyEnv).message
          else if target_lang == javaName then (run_java converted_code envs.javaEnv).message
          else if target_lang == jsName then (run_javascript converted_code envs.jsEnv).message
          else emptyStr
        else emptyStr
      ⟨conversion_info, converted_code, execution_output, step.2.2⟩

/-! ### Concrete inputs and environments used by witnesses and
counterexamples -/

def exPyCode : String := "def f(x):\n    return x"
def exNoPubJava : String := "class Foo"
def exJavaCode : String := "public class Main"
def ex8Code : String := "x = 1\n    def f(x):"
def errTxt : String := "boom"
def tnC : String := "/tmp/tmpc.cpp"
def tnP : String := "/tmp/tmpp.py"
def tnJ : String := "/tmp/tmpj.java"
def tnS : String := "/tmp/tmps.js"
def okRes : ProcResult := ⟨0, emptyStr, emptyStr⟩
def failRes : ProcResult := ⟨1, emptyStr, errTxt⟩
def cppEnvOk : CppEnv := ⟨.found 0, tnC, .completed okRes, .completed okRes⟩
def pyEnvOk : PyEnv := ⟨tnP, .completed okRes⟩
def javaEnvOk : JavaEnv := ⟨.found 0, tnJ, .completed okRes, .completed okRes⟩
def jsEnvOk : JsEnv := ⟨.found 0, tnS, .completed okRes⟩
def pyEnvTO : PyEnv := ⟨tnP, .timeout⟩
def pyEnvNF : PyEnv := ⟨tnP, .startFailure errTxt⟩
def cppEnvRunFail : CppEnv := ⟨.found 0, tnC, .completed okRes, .completed failRes⟩
def envsOk : Envs := ⟨cppEnvOk, pyEnvOk, javaEnvOk, jsEnvOk⟩

/-! ### Characterisation of the classifier's def-bonus condition -/

/-- Lines of a string, split on the newline character (used to state the
claim's "some line of the code begins with `def` at column 0"). -/
def splitOnNl : List Char → List (List Char)
  | [] => [[]]
  | c :: rest =>
    if c = '\n' then [] :: splitOnNl rest
    else
      match splitOnNl rest with
      | [] => [[c]]
      | l :: ls => (c :: l) :: ls

/-- The classifier's `+3` def-bonus condition as a function of the raw
code string (the source strips the code before matching). -/
def pythonDefBonus (code : String) : Bool :=
  defBonusL (stripL code.toList)

/-- The claim's wording of the bonus condition: some line of the code
begins with the `def` keyword at column 0. -/
def beginsDefCol0 (code : String) : Bool :=
  (splitOnNl code.toList).any (fun ln => defKw.isPrefixOf ln)

/-- Decomposition form of the regex tail `\s+\w+\s*\(`. -/
def DefTailShape (u : List Char) : Prop :=
  ∃ ws1 name ws2 rest,
    u = ws1 ++ name ++ ws2 ++ '(' :: rest ∧
    ws1 ≠ [] ∧ (∀ c ∈ ws1, isPySpace c = true) ∧
    name ≠ [] ∧ (∀ c ∈ name, isWordChar c = true) ∧
    (∀ c ∈ ws2, isPySpace c = true)

/-- Decomposition form of `\s*def\s+\w+\s*\(` matched at one position. -/
def DefAt (s : List Char) : Prop :=
  ∃ ws0 u, s = ws0 ++ defKw ++ u ∧ (∀ c ∈ ws0, isPySpace c = true) ∧ DefTailShape u

/-- Decomposition form of the whole `re.MULTILINE` search: the pattern
matches at the start of the string or right after some newline. -/
def DefSignal (l : List Char) : Prop :=
  ∃ s, (l = s ∨ ∃ pre, l = pre ++ '\n' :: s) ∧ DefAt s

/-! ### Helper lemmas -/

theorem detectPick_eq_specPick (p c j s : Nat) : detectPick p c j s = specPick p c j s := by
  simp only [detectPick, specPick]
  split_ifs <;> dsimp only at * <;> first | rfl | omega

theorem specPick_unknown_iff (p c j s : Nat) :
    specPick p c j s = unknownName ↔ (p = 0 ∧ c = 0 ∧ j = 0 ∧ s = 0) := by
  simp only [specPick]
  split_ifs <;> constructor <;> intro h <;>
    first
      | omega
      | rfl
      | (exact absurd h (by decide))

/-- C5: For every code string, classify returns the language whose total
score is maximal, returning Unknown exactly when all four language scores
are zero, and resolving ties among equal positive scores by enumeration
order (Python, Cpp, Java, JavaScript) with the first encountered maximum
winning.  `specClassify` implements the selection rule exactly as the
claim words it; `detect_language` is the source's fold over the
insertion-ordered dict. -/
theorem claim5_classifier_selection (code : String) :
    detect_language code = specClassify code ∧
    (detect_language code = unknownName ↔
      (python_score (stripL code.toList) = 0 ∧ cpp_score (stripL code.toList) = 0 ∧
       java_score (stripL code.toList) = 0 ∧ js_score (stripL code.toList) = 0)) := by
  constructor
  · exact detectPick_eq_specPick _ _ _ _
  · rw [show detect_language code =
        specPick (python_score (stripL code.toList)) (cpp_score (stripL code.toList))
          (java_score (stripL code.toList)) (js_score (stripL code.toList)) from
      detectPick_eq_specPick _ _ _ _]
    exact specPick_unknown_iff _ _ _ _

/-- C9: classify is deterministic and side-effect free: any two calls on
the same code string return the same language.  The source function only
reads its argument (no I/O, no global state), so it embeds as a pure Lean
function, and the two results of repeated calls coincide. -/
theorem claim9_classifier_deterministic (c : String) (l1 l2 : String)
    (h1 : detect_language c = l1) (h2 : detect_language c = l2) : l1 = l2 :=
  h1 ▸ h2 ▸ rfl

/-- Witness for C9 at a concrete input: two calls on the example Python
snippet both return `"Python"`. -/
theorem claim9_witness : pyName = pyName :=
  claim9_classifier_deterministic exPyCode pyName pyName (by rfl) (by rfl)

theorem cpp_cleanup (code : String) (e : CppEnv)
    (h1 : e.compile.isCompleted = true) (h2 : e.run.isCompleted = true) :
    filesRemaining (compile_cpp code e).trace = [] := by
  obtain ⟨pr, tn, comp, run⟩ := e
  cases comp with
  | timeout => simp [ProcOutcome.isCompleted] at h1
  | startFailure e0 => simp [ProcOutcome.isCompleted] at h1
  | completed c =>
    cases run with
    | timeout => simp [ProcOutcome.isCompleted] at h2
    | startFailure e0 => simp [ProcOutcome.isCompleted] at h2
    | completed r =>
      by_cases hav : pr.available = true
      · by_cases hrc : c.returncode = 0 <;>
          simp [compile_cpp, hav, hrc, filesRemaining, applyEvent, List.erase_cons_head]
      · simp [compile_cpp, hav, filesRemaining, applyEvent]

theorem py_cleanup (code : String) (e : PyEnv) (h : e.run.isCompleted = true) :
    filesRemaining (run_python code e).trace = [] := by
  obtain ⟨tn, run⟩ := e
  cases run with
  | timeout => simp [ProcOutcome.isCompleted] at h
  | startFailure e0 => simp [ProcOutcome.isCompleted] at h
  | completed r =>
    simp [run_python, filesRemaining, applyEvent, List.erase_cons_head]

theorem java_cleanup (code : String) (e : JavaEnv)
    (h1 : e.compile.isCompleted = true) (h2 : e.run.isCompleted = true) :
    filesRemaining (run_java code e).trace = [] := by
  obtain ⟨pr, tn, comp, run⟩ := e
  cases comp with
  | timeout => simp [ProcOutcome.isCompleted] at h1
  | startFailure e0 => simp [ProcOutcome.isCompleted] at h1
  | completed c =>
    cases run with
    | timeout => simp [ProcOutcome.isCompleted] at h2
    | startFailure e0 => simp [ProcOutcome.isCompleted] at h2
    | completed r =>
      by_cases hav : pr.available = true
      · cases hcn : javaClassName code with
        | none => simp [run_java, hav, hcn, filesRemaining, applyEvent]
        | some cls =>
          by_cases hrc : c.returncode = 0 <;>
            simp [run_java, hav, hcn, hrc, filesRemaining, applyEvent, List.erase_cons_head]
      · simp [run_java, hav, filesRemaining, applyEvent]

theorem js_cleanup (code : String) (e : JsEnv) (h : e.run.isCompleted = true) :
    filesRemaining (run_javascript code e).trace = [] := by
  obtain ⟨pr, tn, run⟩ := e
  cases run with
  | timeout => simp [ProcOutcome.isCompleted] at h
  | startFailure e0 => simp [ProcOutcome.isCompleted] at h
  | completed r =>
    by_cases hav : pr.available = true <;>
      simp [run_javascript, hav, Bool.not_eq_true, filesRemaining, applyEvent,
        List.erase_cons_head]

/-- C1 (counterexample): the claim that every execution request leaves no
artifact file on disk whatever the outcome is false — when the Python run
phase times out, `run_python` returns without deleting the temporary
source file it created. -/
theorem claim1_counterexample :
    ¬ (∀ (code : String) (eC : CppEnv) (eP : PyEnv) (eJ : JavaEnv) (eS : JsEnv),
        filesRemaining (compile_cpp code eC).trace = [] ∧
        filesRemaining (run_python code eP).trace = [] ∧
        filesRemaining (run_java code eJ).trace = [] ∧
        filesRemaining (run_javascript code eS).trace = []) := by
  intro h
  have h2 := (h exPyCode cppEnvOk pyEnvTO javaEnvOk jsEnvOk).2.1
  exact absurd h2 (by decide)

/-- C1 (amended): whenever no phase of the call times out and every
spawned subprocess actually starts (all subprocess outcomes are normal
completions), no artifact file created by the call remains on disk; this
covers success, compile failure, missing toolchain and missing class
name.  When a compile or run phase times out or a spawn raises, the
source file (and, for the compiled languages, the compiled sibling) is
left behind, as the counterexample shows. -/
theorem claim1_theorem (code : String) (eC : CppEnv) (eP : PyEnv) (eJ : JavaEnv) (eS : JsEnv)
    (hC1 : eC.compile.isCompleted = true) (hC2 : eC.run.isCompleted = true)
    (hP : eP.run.isCompleted = true)
    (hJ1 : eJ.compile.isCompleted = true) (hJ2 : eJ.run.isCompleted = true)
    (hS : eS.run.isCompleted = true) :
    filesRemaining (compile_cpp code eC).trace = [] ∧
    filesRemaining (run_python code eP).trace = [] ∧
    filesRemaining (run_java code eJ).trace = [] ∧
    filesRemaining (run_javascript code eS).trace = [] :=
  ⟨cpp_cleanup code eC hC1 hC2, py_cleanup code eP hP,
   java_cleanup code eJ hJ1 hJ2, js_cleanup code eS hS⟩

/-- Witness for C1 (amended) at concrete environments whose compile and
run subprocesses all complete normally. -/
theorem claim1_witness :
    cppEnvOk.compile.isCompleted = true ∧ cppEnvOk.run.isCompleted = true ∧
    pyEnvOk.run.isCompleted = true ∧ javaEnvOk.compile.isCompleted = true ∧
    javaEnvOk.run.isCompleted = true ∧ jsEnvOk.run.isCompleted = true ∧
    (filesRemaining (compile_cpp exJavaCode cppEnvOk).trace = [] ∧
     filesRemaining (run_python exJavaCode pyEnvOk).trace = [] ∧
     filesRemaining (run_java exJavaCode javaEnvOk).trace = [] ∧
     filesRemaining (run_javascript exJavaCode jsEnvOk).trace = []) :=
  ⟨rfl, rfl, rfl, rfl, rfl, rfl,
   claim1_theorem exJavaCode cppEnvOk pyEnvOk javaEnvOk jsEnvOk rfl rfl rfl rfl rfl rfl⟩

/-- C2 (counterexample): for C++ the claimed equivalence between the
succeeded flag and a zero run-phase exit code fails — with the compile
step exiting zero and the run step exiting 1, `compile_cpp` still
returns `succeeded = true`. -/
theorem claim2_counterexample :
    ¬ (∀ (code : String) (e : CppEnv) (c r : ProcResult),
        e.probe.available = true → e.compile = .completed c → c.returncode = 0 →
        e.run = .completed r →
        ((compile_cpp code e).succeeded = true ↔ r.returncode = 0)) := by
  intro h
  have h2 := h exPyCode cppEnvRunFail okRes failRes rfl rfl rfl rfl
  have h3 : (compile_cpp exPyCode cppEnvRunFail).succeeded = true := by decide
  exact absurd (h2.mp h3) (by decide)

/-- C2 (amended): for the compile-then-run languages, when the compile
step exits zero and the run step completes, the returned outcome's
succeeded flag is true regardless of the run step's exit code — the
source returns `True` unconditionally after the run, so only the forward
direction of the claimed equivalence (run exit zero implies succeeded)
holds, by this theorem. -/
theorem claim2_theorem (code : String) (eC : CppEnv) (eJ : JavaEnv) (c r cJ rJ : ProcResult) :
    (eC.probe.available = true → eC.compile = .completed c → c.returncode = 0 →
      eC.run = .completed r → (compile_cpp code eC).succeeded = true) ∧
    (eJ.probe.available = true → (javaClassName code).isSome = true →
      eJ.compile = .completed cJ → cJ.returncode = 0 →
      eJ.run = .completed rJ → (run_java code eJ).succeeded = true) := by
  constructor
  · intro hav hc hrc hr
    obtain ⟨pr, tn, comp, run⟩ := eC
    cases hc
    cases hr
    simp [compile_cpp, hav, hrc]
  · intro hav hcn hc hrc hr
    obtain ⟨pr, tn, comp, run⟩ := eJ
    cases hc
    cases hr
    obtain ⟨cls, hcls⟩ := Option.isSome_iff_exists.mp hcn
    simp [run_java, hav, hcls, hrc]

/-- Witness for C2 (amended) at a concrete environment in which the run
step exits with code 1: the succeeded flag is still true. -/
theorem claim2_witness :
    cppEnvRunFail.probe.available = true ∧
    cppEnvRunFail.compile = .completed okRes ∧ okRes.returncode = 0 ∧
    cppEnvRunFail.run = .completed failRes ∧
    (compile_cpp exPyCode cppEnvRunFail).succeeded = true :=
  ⟨rfl, rfl, rfl, rfl,
   (claim2_theorem exPyCode cppEnvRunFail javaEnvOk okRes failRes okRes okRes).1
     rfl rfl rfl rfl⟩

/-- C3 (counterexample): the claim quantifies over every target
language, but the Python executor performs no toolchain probe at all — a
missing interpreter surfaces only when spawning the run subprocess, at
which point the temporary source file has already been created (and a
process spawn was attempted), contradicting the claim's "having created
no temporary file and spawned no compile or run process". -/
theorem claim3_counterexample :
    ¬ (∀ (code : String) (e : PyEnv) (m : String), e.run = .startFailure m →
        createsOf (run_python code e).trace = [] ∧
        spawnsOf (run_python code e).trace = []) := by
  intro h
  have h2 := (h exPyCode pyEnvNF errTxt rfl).1
  exact absurd h2 (by decide)

/-- C3 (amended): for C++, Java and JavaScript the toolchain probe is the
first effect of the call (it precedes any file creation and any other
spawn), and when the probe reports the toolchain unavailable the executor
returns immediately with the language's fixed instructional message,
having created no file and spawned nothing but the probe.  Python is the
exception: it has no probe, and a missing interpreter is reported as a
generic execution error whose text depends on the raised exception, after
the temporary file was created — the file is then left on disk. -/
theorem claim3_theorem :
    (∀ (code : String) (e : CppEnv), e.probe.available = false →
       compile_cpp code e = ⟨false, cppNotFoundMsg, [.spawn gxxProbeCmd]⟩) ∧
    (∀ (code : String) (e : JavaEnv), e.probe.available = false →
       run_java code e = ⟨false, javaNotFoundMsg, [.spawn javacProbeCmd]⟩) ∧
    (∀ (code : String) (e : JsEnv), e.probe.available = false →
       run_javascript code e = ⟨false, nodeNotFoundMsg, [.spawn nodeProbeCmd]⟩) ∧
    (∀ (code : String) (e : CppEnv),
       (compile_cpp code e).trace.head? = some (.spawn gxxProbeCmd)) ∧
    (∀ (code : String) (e : JavaEnv),
       (run_java code e).trace.head? = some (.spawn javacProbeCmd)) ∧
    (∀ (code : String) (e : JsEnv),
       (run_javascript code e).trace.head? = some (.spawn nodeProbeCmd)) ∧
    (∀ (code : String) (e : PyEnv) (m : String), e.run = .startFailure m →
       run_python code e =
         ⟨false, execErrHeader ++ m, [.createFile e.tmpName, .spawn [pythonCmd, e.tmpName]]⟩ ∧
       filesRemaining (run_python code e).trace = [e.tmpName]) := by
  refine ⟨?_, ?_, ?_, ?_, ?_, ?_, ?_⟩
  · intro code e hav
    obtain ⟨pr, tn, comp, run⟩ := e
    simp [compile_cpp, hav]
  · intro code e hav
    obtain ⟨pr, tn, comp, run⟩ := e
    simp [run_java, hav]
  · intro code e hav
    obtain ⟨pr, tn, run⟩ := e
    simp [run_javascript, hav]
  · intro code e
    obtain ⟨pr, tn, comp, run⟩ := e
    by_cases hav : pr.available = true
    · cases comp with
      | timeout => simp [compile_cpp, hav]
      | startFailure e0 => simp [compile_cpp, hav]
      | completed c =>
        by_cases hrc : c.returncode = 0
        · cases run <;> simp [compile_cpp, hav, hrc]
        · simp [compile_cpp, hav, hrc]
    · simp [compile_cpp, hav]
  · intro code e
    obtain ⟨pr, tn, comp, run⟩ := e
    by_cases hav : pr.available = true
    · cases hcn : javaClassName code with
      | none => simp [run_java, hav, hcn]
      | some cls =>
        cases comp with
        | timeout => simp [run_java, hav, hcn]
        | startFailure e0 => simp [run_java, hav, hcn]
        | completed c =>
          by_cases hrc : c.returncode = 0
          · cases run <;> simp [run_java, hav, hcn, hrc]
          · simp [run_java, hav, hcn, hrc]
    · simp [run_java, hav]
  · intro code e
    obtain ⟨pr, tn, run⟩ := e
    by_cases hav : pr.available = true
    · cases run <;> simp [run_javascript, hav]
    · simp [run_javascript, hav]
  · intro code e m hm
    obtain ⟨tn, run⟩ := e
    cases hm
    exact ⟨rfl, rfl⟩

/-- Witness for C3 (amended): a missing C++ toolchain yields the fixed
instructional message with only the probe in the trace, and a failing
Python interpreter spawn yields the generic error with the temporary file
left on disk. -/
theorem claim3_witness :
    ((⟨.missing, tnC, .timeout, .timeout⟩ : CppEnv).probe.available = false ∧
     compile_cpp exPyCode ⟨.missing, tnC, .timeout, .timeout⟩ =
       ⟨false, cppNotFoundMsg, [.spawn gxxProbeCmd]⟩) ∧
    (pyEnvNF.run = .startFailure errTxt ∧
     run_python exPyCode pyEnvNF =
       ⟨false, execErrHeader ++ errTxt, [.createFile pyEnvNF.tmpName, .spawn [pythonCmd, pyEnvNF.tmpName]]⟩ ∧
     filesRemaining (run_python exPyCode pyEnvNF).trace = [pyEnvNF.tmpName]) :=
  ⟨⟨rfl, claim3_theorem.1 exPyCode ⟨.missing, tnC, .timeout, .timeout⟩ rfl⟩,
   ⟨rfl, (claim3_theorem.2.2.2.2.2.2 exPyCode pyEnvNF errTxt rfl).1,
    (claim3_theorem.2.2.2.2.2.2 exPyCode pyEnvNF errTxt rfl).2⟩⟩

theorem isInfixL_of_append (pre s : List Char) : isInfixL s (pre ++ s) = true := by
  induction pre with
  | nil =>
    cases s with
    | nil => rfl
    | cons c rest => simp [isInfixL, List.isPrefixOf_iff_prefix]
  | cons c rest ih => simp [isInfixL, ih]

/-- C4: for the compile-then-run languages, a non-zero compile exit code
yields `succeeded = false` with the compiler's stderr surfaced verbatim
in the message (after the fixed failure marker), and no run subprocess is
spawned: the trace contains exactly the probe spawn and the compiler
spawn, so no run-step output can appear in the outcome. -/
theorem claim4_theorem (code : String) (eC : CppEnv) (eJ : JavaEnv)
    (c cJ : ProcResult) (cls : String) :
    (eC.probe.available = true → eC.compile = .completed c → ¬c.returncode = 0 →
      compile_cpp code eC =
        ⟨false, compileFailedHeader ++ c.stderr,
         [.spawn gxxProbeCmd, .createFile eC.tmpName,
          .spawn [gxxCmd, stdFlag, oFlag, String.mk (stripCppExt eC.tmpName.toList), eC.tmpName],
          .deleteFile eC.tmpName]⟩ ∧
      isInfixL c.stderr.toList (compile_cpp code eC).message.toList = true ∧
      spawnsOf (compile_cpp code eC).trace =
        [gxxProbeCmd,
         [gxxCmd, stdFlag, oFlag, String.mk (stripCppExt eC.tmpName.toList), eC.tmpName]]) ∧
    (eJ.probe.available = true → javaClassName code = some cls →
      eJ.compile = .completed cJ → ¬cJ.returncode = 0 →
      run_java code eJ =
        ⟨false, compileFailedHeader ++ cJ.stderr,
         [.spawn javacProbeCmd, .createFile eJ.tmpName,
          .renameFile eJ.tmpName (osJoin (dirname eJ.tmpName) (cls ++ javaExt)),
          .spawn [javacCmd, osJoin (dirname eJ.tmpName) (cls ++ javaExt)],
          .deleteFile (osJoin (dirname eJ.tmpName) (cls ++ javaExt))]⟩ ∧
      isInfixL cJ.stderr.toList (run_java code eJ).message.toList = true ∧
      spawnsOf (run_java code eJ).trace =
        [javacProbeCmd, [javacCmd, osJoin (dirname eJ.tmpName) (cls ++ javaExt)]]) := by
  constructor
  · intro hav hc hrc
    obtain ⟨pr, tn, comp, run⟩ := eC
    cases hc
    have hres : compile_cpp code (⟨pr, tn, .completed c, run⟩ : CppEnv) =
        ⟨false, compileFailedHeader ++ c.stderr,
         [.spawn gxxProbeCmd, .createFile tn,
          .spawn [gxxCmd, stdFlag, oFlag, String.mk (stripCppExt tn.toList), tn],
          .deleteFile tn]⟩ := by
      simp [compile_cpp, hav, hrc]
    refine ⟨hres, ?_, ?_⟩
    · rw [hres]
      simpa using isInfixL_of_append compileFailedHeader.toList c.stderr.toList
    · rw [hres]
      simp [spawnsOf]
  · intro hav hcn hc hrc
    obtain ⟨pr, tn, comp, run⟩ := eJ
    cases hc
    have hres : run_java code (⟨pr, tn, .completed cJ, run⟩ : JavaEnv) =
        ⟨false, compileFailedHeader ++ cJ.stderr,
         [.spawn javacProbeCmd, .createFile tn,
          .renameFile tn (osJoin (dirname tn) (cls ++ javaExt)),
          .spawn [javacCmd, osJoin (dirname tn) (cls ++ javaExt)],
          .deleteFile (osJoin (dirname tn) (cls ++ javaExt))]⟩ := by
      simp [run_java, hav, hcn, hrc]
    refine ⟨hres, ?_, ?_⟩
    · rw [hres]
      simpa using isInfixL_of_append compileFailedHeader.toList cJ.stderr.toList
    · rw [hres]
      simp [spawnsOf]

/-- Witness for C4 at a concrete failing-compile environment. -/
theorem claim4_witness :
    (⟨.found 0, tnC, .completed failRes, .timeout⟩ : CppEnv).probe.available = true ∧
    (⟨.found 0, tnC, .completed failRes, .timeout⟩ : CppEnv).compile = .completed failRes ∧
    ¬failRes.returncode = 0 ∧
    compile_cpp exPyCode ⟨.found 0, tnC, .completed failRes, .timeout⟩ =
      ⟨false, compileFailedHeader ++ failRes.stderr,
       [.spawn gxxProbeCmd, .createFile tnC,
        .spawn [gxxCmd, stdFlag, oFlag, String.mk (stripCppExt tnC.toList), tnC],
        .deleteFile tnC]⟩ :=
  ⟨rfl, rfl, by decide,
   ((claim4_theorem exPyCode ⟨.found 0, tnC, .completed failRes, .timeout⟩ javaEnvOk
      failRes okRes emptyStr).1 rfl rfl (by decide)).1⟩

/-- C6 (counterexample): the claim that no toolchain binary of any kind
is invoked when the Java code lacks a public class declaration is false —
the source probes `javac -version` first, so the failing attempt's trace
already contains a spawn of the compiler binary. -/
theorem claim6_counterexample :
    ¬ (∀ (code : String) (e : JavaEnv), javaClassName code = none →
        spawnsOf (run_java code e).trace = []) := by
  intro h
  have h2 := h exNoPubJava javaEnvOk (by decide)
  exact absurd h2 (by decide)

/-- C6 (amended): for Java code with no `public class <Identifier>`
match, `run_java` fails with the descriptive error before any temporary
file is created and before any compile or run subprocess — but after the
toolchain probe, which is the single spawn in the trace. -/
theorem claim6_theorem (code : String) (e : JavaEnv)
    (hav : e.probe.available = true) (hcn : javaClassName code = none) :
    run_java code e = ⟨false, noPublicClassMsg, [.spawn javacProbeCmd]⟩ ∧
    createsOf (run_java code e).trace = [] ∧
    spawnsOf (run_java code e).trace = [javacProbeCmd] := by
  obtain ⟨pr, tn, comp, run⟩ := e
  have hres : run_java code (⟨pr, tn, comp, run⟩ : JavaEnv) =
      ⟨false, noPublicClassMsg, [.spawn javacProbeCmd]⟩ := by
    simp [run_java, hav, hcn]
  exact ⟨hres, by rw [hres]; rfl, by rw [hres]; rfl⟩

/-- Witness for C6 (amended) at the concrete class-less snippet. -/
theorem claim6_witness :
    javaEnvOk.probe.available = true ∧ javaClassName exNoPubJava = none ∧
    run_java exNoPubJava javaEnvOk = ⟨false, noPublicClassMsg, [.spawn javacProbeCmd]⟩ :=
  ⟨rfl, by decide, (claim6_theorem exNoPubJava javaEnvOk rfl (by decide)).1⟩

/-- C7: for every language, a timeout of the compile phase or of the run
phase yields `succeeded = false` with a message containing "timed out",
and the result is terminal: the trace ends at the timed-out spawn — no
further subprocess is started and no retry occurs.  Each conjunct states
the full result, so the message and the absence of any later spawn are
both pinned down; the two final conjuncts check that both timeout
messages of the source contain the words "timed out". -/
theorem claim7_theorem (code : String) :
    (∀ (e : CppEnv), e.probe.available = true → e.compile = .timeout →
      compile_cpp code e =
        ⟨false, compileRunTimeoutMsg,
         [.spawn gxxProbeCmd, .createFile e.tmpName,
          .spawn [gxxCmd, stdFlag, oFlag, String.mk (stripCppExt e.tmpName.toList), e.tmpName]]⟩) ∧
    (∀ (e : CppEnv) (c : ProcResult), e.probe.available = true →
      e.compile = .completed c → c.returncode = 0 → e.run = .timeout →
      compile_cpp code e =
        ⟨false, compileRunTimeoutMsg,
         [.spawn gxxProbeCmd, .createFile e.tmpName,
          .spawn [gxxCmd, stdFlag, oFlag, String.mk (stripCppExt e.tmpName.toList), e.tmpName],
          .createFile (String.mk (stripCppExt e.tmpName.toList)),
          .spawn [String.mk (stripCppExt e.tmpName.toList)]]⟩) ∧
    (∀ (e : PyEnv), e.run = .timeout →
      run_python code e =
        ⟨false, execTimeoutMsg, [.createFile e.tmpName, .spawn [pythonCmd, e.tmpName]]⟩) ∧
    (∀ (e : JavaEnv) (cls : String), e.probe.available = true →
      javaClassName code = some cls → e.compile = .timeout →
      run_java code e =
        ⟨false, compileRunTimeoutMsg,
         [.spawn javacProbeCmd, .createFile e.tmpName,
          .renameFile e.tmpName (osJoin (dirname e.tmpName) (cls ++ javaExt)),
          .spawn [javacCmd, osJoin (dirname e.tmpName) (cls ++ javaExt)]]⟩) ∧
    (∀ (e : JavaEnv) (cls : String) (c : ProcResult), e.probe.available = true →
      javaClassName code = some cls → e.compile = .completed c → c.returncode = 0 →
      e.run = .timeout →
      run_java code e =
        ⟨false, compileRunTimeoutMsg,
         [.spawn javacProbeCmd, .createFile e.tmpName,
          .renameFile e.tmpName (osJoin (dirname e.tmpName) (cls ++ javaExt)),
          .spawn [javacCmd, osJoin (dirname e.tmpName) (cls ++ javaExt)],
          .createFile (osJoin (dirname e.tmpName) (cls ++ classExt)),
          .spawn [javaCmd, cpFlag, dirname e.tmpName, cls]]⟩) ∧
    (∀ (e : JsEnv), e.probe.available = true → e.run = .timeout →
      run_javascript code e =
        ⟨false, execTimeoutMsg,
         [.spawn nodeProbeCmd, .createFile e.tmpName, .spawn [nodeCmd, e.tmpName]]⟩) ∧
    isInfixL timedOutStr.toList compileRunTimeoutMsg.toList = true ∧
    isInfixL timedOutStr.toList execTimeoutMsg.toList = true := by
  refine ⟨?_, ?_, ?_, ?_, ?_, ?_, by decide, by decide⟩
  · intro e hav hc
    obtain ⟨pr, tn, comp, run⟩ := e
    cases hc
    simp [compile_cpp, hav]
  · intro e c hav hc hrc hr
    obtain ⟨pr, tn, comp, run⟩ := e
    cases hc
    cases hr
    simp [compile_cpp, hav, hrc]
  · intro e hr
    obtain ⟨tn, run⟩ := e
    cases hr
    rfl
  · intro e cls hav hcn hc
    obtain ⟨pr, tn, comp, run⟩ := e
    cases hc
    simp [run_java, hav, hcn]
  · intro e cls c hav hcn hc hrc hr
    obtain ⟨pr, tn, comp, run⟩ := e
    cases hc
    cases hr
    simp [run_java, hav, hcn, hrc]
  · intro e hav hr
    obtain ⟨pr, tn, run⟩ := e
    cases hr
    simp [run_javascript, hav]

/-- Witness for C7 at concrete timeout environments: a timed-out Python
run and a timed-out C++ compile both yield a failed outcome whose message
is the fixed "timed out" text. -/
theorem claim7_witness :
    pyEnvTO.run = .timeout ∧
    run_python exPyCode pyEnvTO =
      ⟨false, execTimeoutMsg, [.createFile pyEnvTO.tmpName, .spawn [pythonCmd, pyEnvTO.tmpName]]⟩ ∧
    (⟨.found 0, tnC, .timeout, .timeout⟩ : CppEnv).probe.available = true ∧
    compile_cpp exPyCode ⟨.found 0, tnC, .timeout, .timeout⟩ =
      ⟨false, compileRunTimeoutMsg,
       [.spawn gxxProbeCmd, .createFile tnC,
        .spawn [gxxCmd, stdFlag, oFlag, String.mk (stripCppExt tnC.toList), tnC]]⟩ :=
  ⟨rfl, (claim7_theorem exPyCode).2.2.1 pyEnvTO rfl, rfl,
   (claim7_theorem exPyCode).1 ⟨.found 0, tnC, .timeout, .timeout⟩ rfl rfl⟩

theorem detect_of_strip_nil (source : String) (h : stripL source.toList = []) :
    detect_language source = unknownName := by
  unfold detect_language
  rw [h]
  rfl

/-- C10: when the detected source language equals the selected target
language (one of the four dropdown choices), the conversion step is the
identity — the converted code returned by `process_code` is exactly the
input source string, and the external translation service is never
consulted. -/
theorem claim10_theorem (llm : String) (envs : Envs) (source target : String) (cr : Bool)
    (htgt : target = pyName ∨ target = cppName ∨ target = javaName ∨ target = jsName)
    (hdet : detect_language source = target) :
    (process_code llm envs source target cr).converted_code = source ∧
    (process_code llm envs source target cr).llmCalled = false := by
  have hun : (target == unknownName) = false := by
    rcases htgt with h | h | h | h <;> subst h <;> decide
  have hne : ¬stripL source.toList = [] := by
    intro h0
    rw [detect_of_strip_nil source h0] at hdet
    rcases htgt with h | h | h | h <;> rw [← hdet] at h <;> exact absurd h (by decide)
  unfold process_code
  rw [if_neg hne]
  simp only [hdet, hun, Bool.false_eq_true, if_false, beq_self_eq_true, if_true]
  exact ⟨trivial, trivial⟩

/-- Witness for C10: the example Python snippet, detected as Python and
targeted at Python, is returned unchanged with no translation call. -/
theorem claim10_witness :
    (pyName = pyName ∨ pyName = cppName ∨ pyName = javaName ∨ pyName = jsName) ∧
    detect_language exPyCode = pyName ∧
    (process_code errTxt envsOk exPyCode pyName true).converted_code = exPyCode ∧
    (process_code errTxt envsOk exPyCode pyName true).llmCalled = false :=
  ⟨Or.inl rfl, by decide,
   (claim10_theorem errTxt envsOk exPyCode pyName true (Or.inl rfl) (by decide)).1,
   (claim10_theorem errTxt envsOk exPyCode pyName true (Or.inl rfl) (by decide)).2⟩

theorem space_not_word (c : Char) (h : isPySpace c = true) : isWordChar c = false := by
  simp [isPySpace] at h
  rcases h with ((((h | h) | h) | h) | h) | h <;> subst h <;> decide

theorem word_not_space (c : Char) (h : isWordChar c = true) : isPySpace c = false := by
  cases hsp : isPySpace c with
  | false => rfl
  | true => rw [space_not_word c hsp] at h; exact absurd h (by decide)

theorem dropWhile_all_append (p : Char → Bool) (xs ys : List Char)
    (h : ∀ x ∈ xs, p x = true) : (xs ++ ys).dropWhile p = ys.dropWhile p := by
  induction xs with
  | nil => rfl
  | cons a t ih =>
    have ha : p a = true := h a (List.mem_cons_self a t)
    rw [List.cons_append, List.dropWhile_cons, if_pos ha]
    exact ih (fun x hx => h x (List.mem_cons_of_mem a hx))

theorem dropWhile_cons_neg (p : Char → Bool) (a : Char) (t : List Char) (h : p a = false) :
    (a :: t).dropWhile p = a :: t := by
  rw [List.dropWhile_cons, if_neg (by simp [h])]

theorem parenThen_iff (w : List Char) :
    parenThen w = true ↔ ∃ rest, w = '(' :: rest := by
  cases w with
  | nil => simp [parenThen]
  | cons a t =>
    constructor
    · intro h
      have ha : a = '(' := by simpa [parenThen] using h
      exact ⟨t, by rw [ha]⟩
    · rintro ⟨rest, h⟩
      injection h with h1 h2
      simp [parenThen, h1]

theorem wordThen_iff (v : List Char) :
    wordThen v = true ↔
      ∃ name ws2 rest, v = name ++ ws2 ++ '(' :: rest ∧
        name ≠ [] ∧ (∀ c ∈ name, isWordChar c = true) ∧
        (∀ c ∈ ws2, isPySpace c = true) := by
  constructor
  · intro h
    cases v with
    | nil => exact absurd h (by simp [wordThen])
    | cons d t =>
      simp only [wordThen, Bool.and_eq_true] at h
      obtain ⟨hd, hp⟩ := h
      obtain ⟨rest, hrest⟩ := (parenThen_iff _).mp hp
      refine ⟨(d :: t).takeWhile isWordChar,
              ((d :: t).dropWhile isWordChar).takeWhile isPySpace, rest, ?_, ?_, ?_, ?_⟩
      · conv_lhs => rw [← List.takeWhile_append_dropWhile isWordChar (d :: t)]
        conv_lhs =>
          rw [← List.takeWhile_append_dropWhile isPySpace ((d :: t).dropWhile isWordChar)]
        rw [hrest]
        simp [List.append_assoc]
      · rw [List.takeWhile_cons, if_pos hd]
        exact List.cons_ne_nil _ _
      · intro c hc; exact List.mem_takeWhile_imp hc
      · intro c hc; exact List.mem_takeWhile_imp hc
  · rintro ⟨name, ws2, rest, hv, hne, hword, hspace⟩
    cases name with
    | nil => exact absurd rfl hne
    | cons d nt =>
      have hd : isWordChar d = true := hword d (List.mem_cons_self _ _)
      subst hv
      have hdrop1 : ((d :: nt) ++ (ws2 ++ '(' :: rest)).dropWhile isWordChar =
          (ws2 ++ '(' :: rest).dropWhile isWordChar :=
        dropWhile_all_append isWordChar (d :: nt) (ws2 ++ '(' :: rest) hword
      have hdrop2 : (ws2 ++ '(' :: rest).dropWhile isWordChar = ws2 ++ '(' :: rest := by
        cases ws2 with
        | nil => exact dropWhile_cons_neg isWordChar '(' rest (by decide)
        | cons w wt =>
          rw [List.cons_append]
          exact dropWhile_cons_neg isWordChar w (wt ++ '(' :: rest)
            (space_not_word w (hspace w (List.mem_cons_self _ _)))
      have hdrop3 : (ws2 ++ '(' :: rest).dropWhile isPySpace = '(' :: rest := by
        rw [dropWhile_all_append isPySpace ws2 ('(' :: rest) hspace]
        exact dropWhile_cons_neg isPySpace '(' rest (by decide)
      simp only [List.append_assoc]
      rw [List.cons_append]
      simp only [wordThen]
      rw [← List.cons_append, hdrop1, hdrop2, hdrop3, hd]
      simp [parenThen]

theorem defTail_iff (u : List Char) : defTail u = true ↔ DefTailShape u := by
  constructor
  · intro h
    cases u with
    | nil => exact absurd h (by simp [defTail])
    | cons c t =>
      simp only [defTail, Bool.and_eq_true] at h
      obtain ⟨hc, hw⟩ := h
      obtain ⟨name, ws2, rest, hv, hne, hword, hspace⟩ := (wordThen_iff _).mp hw
      refine ⟨(c :: t).takeWhile isPySpace, name, ws2, rest, ?_, ?_, ?_, hne, hword, hspace⟩
      · conv_lhs => rw [← List.takeWhile_append_dropWhile isPySpace (c :: t)]
        rw [hv]
        simp [List.append_assoc]
      · rw [List.takeWhile_cons, if_pos hc]
        exact List.cons_ne_nil _ _
      · intro x hx; exact List.mem_takeWhile_imp hx
  · rintro ⟨ws1, name, ws2, rest, hv, hne1, hspace1, hne, hword, hspace⟩
    cases ws1 with
    | nil => exact absurd rfl hne1
    | cons w wt =>
      have hw : isPySpace w = true := hspace1 w (List.mem_cons_self _ _)
      subst hv
      have hdrop : ((w :: wt) ++ (name ++ (ws2 ++ '(' :: rest))).dropWhile isPySpace =
          name ++ (ws2 ++ '(' :: rest) := by
        rw [dropWhile_all_append isPySpace (w :: wt) _ hspace1]
        cases name with
        | nil => exact absurd rfl hne
        | cons d nt =>
          rw [List.cons_append]
          exact dropWhile_cons_neg isPySpace d (nt ++ (ws2 ++ '(' :: rest))
            (word_not_space d (hword d (List.mem_cons_self _ _)))
      simp only [List.append_assoc]
      rw [List.cons_append]
      simp only [defTail]
      rw [← List.cons_append, hdrop, hw]
      simp only [Bool.true_and]
      exact (wordThen_iff _).mpr
        ⟨name, ws2, rest, by simp [List.append_assoc], hne, hword, hspace⟩

theorem defMatchAt_iff (s : List Char) : defMatchAt s = true ↔ DefAt s := by
  constructor
  · intro h
    simp only [defMatchAt, Bool.and_eq_true] at h
    obtain ⟨hpre, htail⟩ := h
    obtain ⟨t2, ht2⟩ := List.isPrefixOf_iff_prefix.mp hpre
    have hdrop3 : (s.dropWhile isPySpace).drop 3 = t2 := by
      rw [← ht2]
      rfl
    refine ⟨s.takeWhile isPySpace, t2, ?_, ?_, ?_⟩
    · conv_lhs => rw [← List.takeWhile_append_dropWhile isPySpace s]
      rw [← ht2]
      simp [List.append_assoc]
    · intro x hx; exact List.mem_takeWhile_imp hx
    · rw [hdrop3] at htail
      exact (defTail_iff _).mp htail
  · rintro ⟨ws0, u, hv, hspace0, hshape⟩
    subst hv
    have hdrop : (ws0 ++ (defKw ++ u)).dropWhile isPySpace = defKw ++ u := by
      rw [dropWhile_all_append isPySpace ws0 _ hspace0]
      exact dropWhile_cons_neg isPySpace 'd' ('e' :: 'f' :: u) (by decide)
    simp only [List.append_assoc]
    simp only [defMatchAt]
    rw [hdrop, Bool.and_eq_true]
    constructor
    · exact List.isPrefixOf_iff_prefix.mpr ⟨u, rfl⟩
    · exact (defTail_iff u).mpr hshape

theorem searchFrom_iff (m : List Char → Bool) (l : List Char) :
    searchFrom m l = true ↔ ∃ pre s, l = pre ++ '\n' :: s ∧ m s = true := by
  induction l with
  | nil =>
    simp only [searchFrom]
    constructor
    · intro h; exact absurd h (by decide)
    · rintro ⟨pre, s, h, _⟩
      exact absurd h.symm (List.append_ne_nil_of_right_ne_nil pre (List.cons_ne_nil _ _))
  | cons c rest ih =>
    simp only [searchFrom, Bool.or_eq_true, Bool.and_eq_true, beq_iff_eq]
    constructor
    · rintro (⟨hc, hm⟩ | h)
      · exact ⟨[], rest, by rw [hc]; rfl, hm⟩
      · obtain ⟨pre, s, hl, hm⟩ := ih.mp h
        exact ⟨c :: pre, s, by rw [List.cons_append, hl], hm⟩
    · rintro ⟨pre, s, hl, hm⟩
      cases pre with
      | nil =>
        injection hl with h1 h2
        exact Or.inl ⟨h1, h2 ▸ hm⟩
      | cons p pt =>
        rw [List.cons_append] at hl
        injection hl with h1 h2
        exact Or.inr (ih.mpr ⟨pt, s, h2, hm⟩)

/-- C8 (counterexample): the claim that the `+3` bonus is awarded exactly
when some line begins with `def` at column 0 is false — on
`"x = 1\n    def f(x):"` no line begins with `def` at column 0, yet the
source regex `^\s*def\s+\w+\s*\(` matches (its `\s*` allows leading
whitespace) and the bonus is awarded. -/
theorem claim8_counterexample :
    ¬ (∀ code : String, pythonDefBonus code = beginsDefCol0 code) := by
  intro h
  exact absurd (h ex8Code) (by decide)

/-- C8 (amended): the `+3` bonus is awarded exactly when the stripped
code contains, at the start of the string or right after a newline,
optional whitespace, then `def`, at least one whitespace character, an
identifier (word characters), optional whitespace, and an opening
parenthesis — where the whitespace runs may themselves contain line
breaks.  Leading whitespace before `def` is allowed, and a bare `def`
with no following identifier and parenthesis earns nothing. -/
theorem claim8_theorem (code : String) :
    pythonDefBonus code = true ↔ DefSignal (stripL code.toList) := by
  unfold pythonDefBonus defBonusL searchLineStarts
  rw [Bool.or_eq_true]
  constructor
  · rintro (h | h)
    · exact ⟨stripL code.toList, Or.inl rfl, (defMatchAt_iff _).mp h⟩
    · obtain ⟨pre, s, hl, hm⟩ := (searchFrom_iff _ _).mp h
      exact ⟨s, Or.inr ⟨pre, hl⟩, (defMatchAt_iff _).mp hm⟩
  · rintro ⟨s, hpos, hat⟩
    rcases hpos with rfl | ⟨pre, hl⟩
    · exact Or.inl ((defMatchAt_iff _).mpr hat)
    · exact Or.inr ((searchFrom_iff _ _).mpr ⟨pre, s, hl, (defMatchAt_iff _).mpr hat⟩)
